import Mathlib

/-!
Verification of the NL→SQL reasoning pipeline of this repository
(`sqlm.py` and `schema_awareness.py`) against its natural-language
specification.

Python strings are shallowly embedded as `List Char` (named `Str` below),
so that Python slicing, `startswith`, `in` (substring), `str.replace`,
`str.strip` and `str.lower` become executable Lean functions with the same
semantics on the ASCII inputs the program manipulates.  External
collaborators (database drivers, the Gemini client, `json.loads` from the
standard library, the optional `sqlglot`/`sqlparse` libraries, `hashlib`,
clock) are modelled as oracle parameters: the repository's own code is
translated faithfully, and every behaviour of the externals is quantified
over.
-/

/-- Python `str` is modelled as a list of characters. -/
abbrev Str := List Char

/-- Python `s.startswith(p)`: `p` is a leading segment of `s`. -/
def pfxB : Str → Str → Bool
  | [], _ => true
  | _ :: _, [] => false
  | p :: ps, c :: cs => p == c && pfxB ps cs

/-- Propositional form of `pfxB`. -/
def PfxP (p s : Str) : Prop := ∃ t, s = p ++ t

/-- Python `p in s` (substring occurrence), executable form. -/
def substrB (p : Str) : Str → Bool
  | [] => p.isEmpty
  | c :: rest => pfxB p (c :: rest) || substrB p rest

/-- Propositional form of substring occurrence: `p` occurs inside `s`. -/
def SubstrP (p s : Str) : Prop := ∃ u v, s = u ++ p ++ v

theorem pfxB_iff (p : Str) : ∀ s, pfxB p s = true ↔ PfxP p s := by
  induction p with
  | nil => intro s; simp [pfxB, PfxP]
  | cons a ps ih =>
    intro s
    cases s with
    | nil => simp [pfxB, PfxP]
    | cons c cs =>
      simp only [pfxB, Bool.and_eq_true, beq_iff_eq, PfxP]
      constructor
      · rintro ⟨rfl, h⟩
        obtain ⟨t, rfl⟩ := (ih cs).mp h
        exact ⟨t, rfl⟩
      · rintro ⟨t, h⟩
        injection h with h1 h2
        exact ⟨h1.symm, (ih cs).mpr ⟨t, h2⟩⟩

theorem substrP_nil (p : Str) : SubstrP p [] ↔ p = [] := by
  constructor
  · rintro ⟨u, v, h⟩
    obtain ⟨hup, -⟩ := List.append_eq_nil.mp h.symm
    exact (List.append_eq_nil.mp hup).2
  · rintro rfl; exact ⟨[], [], rfl⟩

theorem substrP_cons (p : Str) (c : Char) (rest : Str) :
    SubstrP p (c :: rest) ↔ PfxP p (c :: rest) ∨ SubstrP p rest := by
  constructor
  · rintro ⟨u, v, h⟩
    cases u with
    | nil => exact Or.inl ⟨v, by simpa using h⟩
    | cons a u' =>
      right
      injection h with h1 h2
      exact ⟨u', v, h2⟩
  · rintro (⟨t, h⟩ | ⟨u, v, h⟩)
    · exact ⟨[], t, by simpa using h⟩
    · exact ⟨c :: u, v, by simp [h]⟩

theorem substrB_iff (p : Str) : ∀ s, substrB p s = true ↔ SubstrP p s := by
  intro s
  induction s with
  | nil =>
    simp only [substrB, List.isEmpty_iff, substrP_nil]
  | cons c rest ih =>
    simp only [substrB, Bool.or_eq_true, pfxB_iff, ih, substrP_cons]

theorem substrP_append_right (p u v : Str) (h : SubstrP p v) : SubstrP p (u ++ v) := by
  obtain ⟨a, b, rfl⟩ := h
  exact ⟨u ++ a, b, by simp⟩

/-- If every character of `u` is `'*'` and `p` is nonempty without `'*'`,
an occurrence of `p` in `u ++ v` must lie inside `v`. -/
theorem substrP_allstar_append (p : Str) (hp : p ≠ []) (hps : ∀ ch ∈ p, ch ≠ '*') :
    ∀ u v, (∀ ch ∈ u, ch = '*') → SubstrP p (u ++ v) → SubstrP p v := by
  intro u
  induction u with
  | nil => intro v _ h; simpa using h
  | cons a u' ih =>
    intro v hstar h
    rw [List.cons_append, substrP_cons] at h
    rcases h with ⟨t, he⟩ | h
    · cases p with
      | nil => exact absurd rfl hp
      | cons p0 ps =>
        injection he with h1 _
        have ha : a = '*' := hstar a (by simp)
        exact absurd (h1.symm.trans ha) (hps p0 (by simp))
    · exact ih v (fun ch hc => hstar ch (by simp [hc])) h

/-- Python `c.isspace()` for the ASCII whitespace characters `str.strip`
removes (the inputs in this development are ASCII). -/
def isSpaceCh (c : Char) : Bool :=
  c = ' ' || c = '\t' || c = '\n' || c = '\r' || c = '\x0b' || c = '\x0c'

/-- Python `s.strip()`: remove leading and trailing whitespace. -/
def pyStrip (s : Str) : Str :=
  ((s.dropWhile isSpaceCh).reverse.dropWhile isSpaceCh).reverse

/-- Python `s.lower()` (ASCII range, which is all the code relies on). -/
def toLowerStr (s : Str) : Str := s.map Char.toLower

/-- A regex `\w` word character: `[a-zA-Z0-9_]` (the program's SQL texts
are ASCII, matching Python `re`'s behaviour on them). -/
def isWordChar (c : Char) : Bool :=
  ('a' ≤ c && c ≤ 'z') || ('A' ≤ c && c ≤ 'Z') || ('0' ≤ c && c ≤ '9') || c = '_'

/-- Python `s.replace(old, new)` with a nonempty `old`: scan left to right,
replacing non-overlapping occurrences.  The `fuel` argument (instantiated
with `s.length` by `replaceAll`) makes the recursion structural so that the
function reduces in the kernel. -/
def replaceGo (p r : Str) : Nat → Str → Str
  | _, [] => []
  | 0, s => s
  | fuel + 1, c :: rest =>
    if p ≠ [] ∧ pfxB p (c :: rest) then
      r ++ replaceGo p r fuel ((c :: rest).drop p.length)
    else
      c :: replaceGo p r fuel rest

/-- Python `s.replace(p, r)` for nonempty `p` (the code guards on
`len(pwd) > 0` before calling it). -/
def replaceAll (p r s : Str) : Str := replaceGo p r s.length s

theorem replaceGo_fuel (p r : Str) :
    ∀ n m s, s.length ≤ n → s.length ≤ m → replaceGo p r n s = replaceGo p r m s := by
  intro n
  induction n with
  | zero =>
    intro m s hn _
    have : s = [] := List.eq_nil_of_length_eq_zero (Nat.le_zero.mp hn)
    subst this
    cases m <;> rfl
  | succ n ih =>
    intro m s hn hm
    cases s with
    | nil => cases m <;> rfl
    | cons c rest =>
      cases m with
      | zero => simp at hm
      | succ m =>
        simp only [replaceGo]
        by_cases h : p ≠ [] ∧ pfxB p (c :: rest) = true
        · simp only [if_pos h]
          have hplen : 1 ≤ p.length := by
            cases p with
            | nil => exact absurd rfl h.1
            | cons _ _ => simp
          have hlen : ((c :: rest).drop p.length).length ≤ n := by
            simp only [List.length_drop, List.length_cons]
            simp only [List.length_cons] at hn
            omega
          have hlen' : ((c :: rest).drop p.length).length ≤ m := by
            simp only [List.length_drop, List.length_cons]
            simp only [List.length_cons] at hm
            omega
          rw [ih m _ hlen hlen']
        · simp only [if_neg h]
          have hlen : rest.length ≤ n := by
            simp only [List.length_cons] at hn; omega
          have hlen' : rest.length ≤ m := by
            simp only [List.length_cons] at hm; omega
          rw [ih m _ hlen hlen']

/-- If a pattern `q` without `'*'` is a leading segment of the replacement
result (replacement string all `'*'`), it was already a leading segment of
the original text. -/
theorem pfx_replaceGo (p r : Str) (_hp : p ≠ []) (hr : r ≠ [])
    (hrs : ∀ ch ∈ r, ch = '*') :
    ∀ n s q, s.length ≤ n → (∀ ch ∈ q, ch ≠ '*') →
      PfxP q (replaceGo p r n s) → PfxP q s := by
  intro n
  induction n with
  | zero =>
    intro s q hn _ h
    have : s = [] := List.eq_nil_of_length_eq_zero (Nat.le_zero.mp hn)
    subst this
    simpa [replaceGo] using h
  | succ n ih =>
    intro s q hn hq h
    cases s with
    | nil => simpa [replaceGo] using h
    | cons c rest =>
      simp only [replaceGo] at h
      by_cases hb : p ≠ [] ∧ pfxB p (c :: rest) = true
      · rw [if_pos hb] at h
        cases q with
        | nil => exact ⟨c :: rest, rfl⟩
        | cons q0 qs =>
          obtain ⟨t, ht⟩ := h
          cases r with
          | nil => exact absurd rfl hr
          | cons r0 rs =>
            simp only [List.cons_append] at ht
            injection ht with h1 _
            have : r0 = '*' := hrs r0 (by simp)
            exact absurd (h1.symm.trans this) (hq q0 (by simp))
      · rw [if_neg hb] at h
        cases q with
        | nil => exact ⟨c :: rest, rfl⟩
        | cons q0 qs =>
          obtain ⟨t, ht⟩ := h
          injection ht with h1 h2
          subst h1
          have hrest : rest.length ≤ n := by
            simp only [List.length_cons] at hn; omega
          have : PfxP qs rest :=
            ih rest qs hrest (fun ch hc => hq ch (by simp [hc])) ⟨t, h2⟩
          obtain ⟨t', ht'⟩ := this
          exact ⟨t', by simp [ht']⟩

/-- Core redaction lemma: replacing every occurrence of a nonempty pattern
`p` that contains no `'*'` by an all-`'*'` replacement leaves no occurrence
of `p` in the result. -/
theorem replaceGo_no_occurrence (p r : Str) (hp : p ≠ [])
    (hps : ∀ ch ∈ p, ch ≠ '*') (hr : r ≠ []) (hrs : ∀ ch ∈ r, ch = '*') :
    ∀ n s, s.length ≤ n → ¬ SubstrP p (replaceGo p r n s) := by
  intro n
  induction n with
  | zero =>
    intro s hn h
    have : s = [] := List.eq_nil_of_length_eq_zero (Nat.le_zero.mp hn)
    subst this
    rw [show replaceGo p r 0 ([] : Str) = [] from rfl, substrP_nil] at h
    exact hp h
  | succ n ih =>
    intro s hn h
    cases s with
    | nil =>
      rw [show replaceGo p r (n+1) ([] : Str) = [] from rfl, substrP_nil] at h
      exact hp h
    | cons c rest =>
      simp only [replaceGo] at h
      by_cases hb : p ≠ [] ∧ pfxB p (c :: rest) = true
      · rw [if_pos hb] at h
        have hplen : 1 ≤ p.length := by
          cases p with
          | nil => exact absurd rfl hp
          | cons _ _ => simp
        have hlen : ((c :: rest).drop p.length).length ≤ n := by
          simp only [List.length_drop, List.length_cons]
          simp only [List.length_cons] at hn
          omega
        exact ih _ hlen (substrP_allstar_append p hp hps r _ hrs h)
      · rw [if_neg hb] at h
        rw [substrP_cons] at h
        rcases h with hpfx | h
        · have hpfx' : PfxP p (c :: rest) := by
            cases p with
            | nil => exact ⟨c :: rest, rfl⟩
            | cons p0 ps =>
              obtain ⟨t, ht⟩ := hpfx
              injection ht with h1 h2
              subst h1
              have hrest : rest.length ≤ n := by
                simp only [List.length_cons] at hn; omega
              have : PfxP ps rest :=
                pfx_replaceGo (c :: ps) r hp hr hrs n rest ps hrest
                  (fun ch hc => hps ch (by simp [hc])) ⟨t, h2⟩
              obtain ⟨t', ht'⟩ := this
              exact ⟨t', by simp [ht']⟩
          exact hb ⟨hp, (pfxB_iff _ _).mpr hpfx'⟩
        · have hrest : rest.length ≤ n := by
            simp only [List.length_cons] at hn; omega
          exact ih rest hrest h

/-- `replaceAll` never leaves an occurrence of the pattern when the pattern
contains no `'*'` and the replacement is all `'*'`. -/
theorem replaceAll_no_occurrence (p r s : Str) (hp : p ≠ [])
    (hps : ∀ ch ∈ p, ch ≠ '*') (hr : r ≠ []) (hrs : ∀ ch ∈ r, ch = '*') :
    ¬ SubstrP p (replaceAll p r s) :=
  replaceGo_no_occurrence p r hp hps hr hrs s.length s (Nat.le_refl _)

/-!
## Embedding of `sqlm.py` (Prompt Builder, SQL Validator, Reasoning Core)
-/

/-- `DEFAULT_DIALECT` (module default when the `DEFAULT_DIALECT` environment
variable is unset). -/
def DEFAULT_DIALECT : Str := "mysql".data

/-- `MAX_SCHEMA_PROMPT_CHARS` (module default when the environment variable
is unset): the prompt's schema character budget. -/
def MAX_SCHEMA_PROMPT_CHARS : Nat := 14000

/-- The truncation marker appended by `build_user_prompt`. -/
def truncMarker : Str := "\n...[TRUNCATED]".data

/-- `BASE_SYSTEM_PROMPT` from `sqlm.py`. -/
def BASE_SYSTEM_PROMPT : Str :=
  ("You are a strict SQL generation assistant.\nRules (gotta follow these or things get messy):\n1) Just give me a JSON object - nothing else! Follow the schema below exactly.\n2) Don't make up fake tables or columns - stick to what's in SCHEMA_SNAPSHOT.\n3) If something's not clear, set \"clarify_required\": true and play it safe.\n4) Flag anything destructive - I don't want accidents!\n5) Keep track of which tables and columns you're using.\n\nHere's what I need in that JSON:\n\x7b\n  \"sql\": \"<your SQL query or null if you're not sure>\",\n  \"intent\": \"<select|insert|update|delete|create_table|alter|other>\",\n  \"used_tables\": [\"t1\",\"t2\"],\n  \"used_columns\": [\"t1.col1\",\"t2.col2\"],\n  \"clarify_required\": false,\n  \"destructive\": false,\n  \"explanation\": \"keep it short and sweet (30 words max)\"\n\x7d\nJSON ONLY - NO EXTRA STUFF!\n").data

/-- Fixed text between the system prompt and the schema. -/
def nl2 : Str := "\n\n".data

/-- The `SCHEMA_SNAPSHOT:` header line of the prompt. -/
def schemaHdr : Str := "SCHEMA_SNAPSHOT:\n".data

/-- The `DIALECT: ` header of the prompt. -/
def dialectHdr : Str := "DIALECT: ".data

/-- The `USER_REQUEST: ` header of the prompt. -/
def userHdr : Str := "USER_REQUEST: ".data

/-- The closing instruction line of the prompt. -/
def promptTail : Str := "Produce the JSON output matching the structure above.".data

/-- `build_user_prompt(schema_snapshot, command_text, dialect)` from
`sqlm.py` lines 136-147: truncates an oversized schema (appending the
marker) and assembles the instruction prompt. -/
def build_user_prompt (schema_snapshot command_text dialect : Str) : Str :=
  let s := if MAX_SCHEMA_PROMPT_CHARS < schema_snapshot.length
    then schema_snapshot.take MAX_SCHEMA_PROMPT_CHARS ++ truncMarker
    else schema_snapshot
  BASE_SYSTEM_PROMPT ++ nl2 ++ schemaHdr ++ s ++ nl2 ++ dialectHdr ++ dialect
    ++ nl2 ++ userHdr ++ command_text ++ nl2 ++ promptTail

/-- Does the keyword, occurring at the head of `s`, end at a `\b` word
boundary (end of text or a non-word character)? -/
def kwBoundaryAfter (kw s : Str) : Bool :=
  match s.drop kw.length with
  | [] => true
  | d :: _ => !isWordChar d

/-- Scan for a whole-word occurrence of `kw` (all of whose characters are
word characters) in `s`; `prevW` records whether the character before the
current position is a word character (`\b` on the left). -/
def wordOccAux (kw : Str) : Bool → Str → Bool
  | _, [] => false
  | prevW, c :: rest =>
    (!prevW && pfxB kw (c :: rest) && kwBoundaryAfter kw (c :: rest))
      || wordOccAux kw (isWordChar c) rest

/-- `re.search(r'\b<kw>\b', s)` for a keyword made of word characters. -/
def wordOcc (kw s : Str) : Bool := wordOccAux kw false s

/-- The destructive-keyword scan of `parse_and_validate_sql` (line 166):
`re.search(r'\b(drop|alter|delete|truncate)\b', sql.lower())`. -/
def hasDestructiveKeyword (sql : Str) : Bool :=
  let low := toLowerStr sql
  wordOcc "drop".data low || wordOcc "alter".data low
    || wordOcc "delete".data low || wordOcc "truncate".data low

/-- The destructive-keyword warning string. -/
def destructiveWarning : Str :=
  "Destructive keyword detected (drop/alter/delete/truncate)".data

/-- The Cartesian-product warning string. -/
def cartesianWarning : Str :=
  "Multiple tables referenced without explicit JOIN/WHERE — possible Cartesian product".data

/-- Try to match, at the current position of `s` (left word boundary already
checked by the caller), the regex alternative
`<kw>\s+([`"]?)(\w+)\1` case-insensitively.  Returns the captured table
name, the remaining text after the match, and whether the last matched
character is a word character (for the next `\b` check). -/
def matchKwTable (kw s : Str) : Option (Str × Str × Bool) :=
  if toLowerStr (s.take 4) = kw then
    let rest := s.drop 4
    let ws := rest.takeWhile isSpaceCh
    if ws = [] then none
    else
      let rest2 := rest.dropWhile isSpaceCh
      match rest2 with
      | [] => none
      | q :: rest3 =>
        if q = '\x60' || q = '"' then
          let word := rest3.takeWhile isWordChar
          if word = [] then none
          else
            match rest3.drop word.length with
            | q2 :: after => if q2 = q then some (word, after, false) else none
            | [] => none
        else
          let word := rest2.takeWhile isWordChar
          if word = [] then none
          else some (word, rest2.drop word.length, true)
  else none

/-- Try the two regex alternatives (`\bfrom...` then `\binto...`) at the
current position. -/
def matchEitherKw (s : Str) : Option (Str × Str × Bool) :=
  match matchKwTable "from".data s with
  | some r => some r
  | none => matchKwTable "into".data s

/-- The `re.findall` scan of the fallback table-extraction regex
`\bfrom\s+([`"]?)(\w+)\1|\binto\s+([`"]?)(\w+)\3` (case-insensitive),
collecting captured table names left to right, non-overlapping. -/
def scanTablesAux : Nat → Bool → Str → List Str
  | _, _, [] => []
  | 0, _, _ => []
  | fuel + 1, prevW, c :: rest =>
    match (if prevW then none else matchEitherKw (c :: rest)) with
    | some (name, rem, pw) => name :: scanTablesAux fuel pw rem
    | none => scanTablesAux fuel (isWordChar c) rest

/-- Fallback extraction of table names after `FROM`/`INTO`
(`sqlm.py` lines 219-225). -/
def extractTablesFallback (sql : Str) : List Str :=
  scanTablesAux sql.length false sql

/-- A value stored in the validator's metadata dict. -/
inductive MetaVal where
  | strs : List Str → MetaVal
  | str : Str → MetaVal
deriving DecidableEq

/-- Python dicts with string keys, as insertion-ordered association lists. -/
abbrev Metadata := List (Str × MetaVal)

/-- Key membership in a metadata dict. -/
def hasKey (m : Metadata) (k : Str) : Bool := m.any (fun kv => kv.1 == k)

/-- Oracle for the optional external libraries used by
`parse_and_validate_sql`: `sqlglot` (availability, and the result of
`parse_one` plus the AST walk collecting `exp.Table` and `exp.Column`
identifiers, which operates on external AST objects) and `sqlparse`
(availability, and the result of `sqlparse.format`, `none` modelling a
raised exception). -/
structure ValidatorEnv where
  sqlglotAvail : Bool
  parseOne : Str → Str → Except Str (List Str × List Str)
  sqlparseAvail : Bool
  sqlparseFormat : Str → Option Str

/-- `parse_and_validate_sql(sql, dialect)` from `sqlm.py` lines 153-228:
returns `(ok, warnings, metadata)`.  Python's `set` dedup is modelled with
`List.dedup` (the claims depend only on membership and cardinality, not on
Python's unspecified set iteration order). -/
def parse_and_validate_sql (env : ValidatorEnv) (sql dialect : Str) :
    Bool × List Str × Metadata :=
  let metadata0 : Metadata :=
    [("tables".data, MetaVal.strs []), ("columns".data, MetaVal.strs []),
     ("pretty".data, MetaVal.str sql)]
  if sql = [] then (false, ["No SQL provided".data], metadata0)
  else
    let lowered := toLowerStr sql
    let warnings := if hasDestructiveKeyword sql then [destructiveWarning] else []
    if env.sqlglotAvail then
      match env.parseOne sql dialect with
      | .error e => (false, ["sqlglot parse error: ".data ++ e], metadata0)
      | .ok (tbls, cols) =>
        let tables := tbls.dedup
        let columns := cols.dedup
        let pretty := if env.sqlparseAvail then (env.sqlparseFormat sql).getD sql else sql
        let metadata : Metadata :=
          [("tables".data, MetaVal.strs tables), ("columns".data, MetaVal.strs columns),
           ("pretty".data, MetaVal.str pretty)]
        let warnings :=
          if 1 < tables.length && !substrB "join".data lowered
              && !substrB "where".data lowered
          then warnings ++ [cartesianWarning] else warnings
        (true, warnings, metadata)
    else
      let tnames := extractTablesFallback sql
      let metadata : Metadata :=
        [("tables".data, MetaVal.strs tnames.dedup), ("columns".data, MetaVal.strs []),
         ("pretty".data, MetaVal.str sql)]
      (true, warnings, metadata)

/-- Python `s.endswith(p)`. -/
def sfxB (p s : Str) : Bool := pfxB p.reverse s.reverse

/-- Python `a or b` for an optional string `a` (`None` and `""` are falsy). -/
def pyOrStr (a : Option Str) (b : Str) : Str :=
  match a with
  | some s => if s = [] then b else s
  | none => b

/-- Python `s.find(c)`: index of the first occurrence, `none` for `-1`. -/
def firstIdxOf (c : Char) (s : Str) : Option Nat := s.findIdx? (· = c)

/-- Python `s.rfind(c)`: index of the last occurrence, `none` for `-1`. -/
def lastIdxOf (c : Char) (s : Str) : Option Nat :=
  match s.reverse.findIdx? (· = c) with
  | some i => some (s.length - 1 - i)
  | none => none

/-- The parsed model reply, i.e. the result of `json.loads` restricted to
the fields `generate()` reads (`sqlm.py` lines 490-494).  The Python
truthiness coercions `bool(json_obj.get(..., False))` are modelled by the
`Bool` fields holding the coerced value. -/
structure JsonVal where
  sql : Option Str
  intent : Option Str
  destructive : Bool
  clarify_required : Bool
  explanation : Option Str
deriving DecidableEq

/-- `CommandPayload` from `sqlm.py` (the fields `session_context` and
`entities` are never read by `generate()` and are omitted). -/
structure CommandPayload where
  intent : Str
  raw_nl : Str
  normalized : Option Str := none
  target_db : Option Str := none
  dialect : Option Str := none
  allow_destructive : Bool := false
deriving DecidableEq

/-- `ReasonerOutput` from `sqlm.py`.  `confidence` is an exact decimal
(`0`, `0.4` or `0.9` in the code), modelled in `ℚ`. -/
structure ReasonerOutput where
  sql : Option Str
  intent : Str
  dialect : Str
  warnings : List Str
  errors : List Str
  metadata : Metadata
  explain_text : Option Str
  confidence : ℚ
  safe_to_execute : Bool
deriving DecidableEq

/-- The `GeminiReasoner` instance state read by `generate()`. -/
structure ReasonerState where
  schema_snapshot : Str
  default_dialect : Str
deriving DecidableEq

/-- `GeminiReasoner.__init__`: `schema_snapshot or "NO_SCHEMA_PROVIDED"`. -/
def mkReasoner (schema_snapshot : Str) : ReasonerState :=
  ⟨if schema_snapshot = [] then "NO_SCHEMA_PROVIDED".data else schema_snapshot,
   DEFAULT_DIALECT⟩

/-- `GeminiReasoner.update_schema`. -/
def update_schema (r : ReasonerState) (schema_snapshot : Str) : ReasonerState :=
  { r with schema_snapshot := schema_snapshot }

/-- Oracles for `generate()`'s externals: `backend prompt` is the raw model
text obtained for the built prompt (`sqlm.py` lines 406-411) — produced
either by the real Gemini client, whose `RuntimeError` text is the `.error`
case, or by the deterministic mock `simple_mock_llm_generate`, which never
raises; `jsonLoads` is the standard library's `json.loads`, the `.error`
case carrying `str(JSONDecodeError)`. -/
structure GenEnv where
  validator : ValidatorEnv
  backend : Str → Except Str Str
  jsonLoads : Str → Except Str JsonVal

/-- The code-fence stripping of `generate()` (`sqlm.py` lines 427-449),
applied to the already-stripped reply text. -/
def stripFences (text : Str) : Str :=
  if pfxB "```json".data text then
    let ta := pyStrip (text.drop 7)
    if sfxB "```".data ta then pyStrip (ta.take (ta.length - 3)) else pyStrip ta
  else if pfxB "```".data text then
    let ta := pyStrip (text.drop 3)
    if sfxB "```".data ta then pyStrip (ta.take (ta.length - 3)) else pyStrip ta
  else text

/-- How the two-stage JSON extraction of `generate()` failed. -/
inductive ParseFail where
  | salvage (ex ex2 : Str)
  | noBlob (ex : Str)
deriving DecidableEq

/-- The two-stage JSON extraction of `generate()` (`sqlm.py` lines
452-487): direct `json.loads`, then a salvage parse of the slice from the
first `{` to the last `}` when one exists. -/
def tryParseJson (env : GenEnv) (text : Str) : Except ParseFail JsonVal :=
  match env.jsonLoads text with
  | .ok j => .ok j
  | .error ex =>
    match firstIdxOf '\x7b' text, lastIdxOf '\x7d' text with
    | some s, some e =>
      if s < e then
        match env.jsonLoads ((text.drop s).take (e + 1 - s)) with
        | .ok j => .ok j
        | .error ex2 => .error (.salvage ex ex2)
      else .error (.noBlob ex)
    | some _, none => .error (.noBlob ex)
    | none, _ => .error (.noBlob ex)

/-- The `ReasonerOutput` built when the LLM call raises
(`sqlm.py` lines 413-423). -/
def llmFailOutput (cmd : CommandPayload) (dialect e : Str) : ReasonerOutput :=
  ⟨none, cmd.intent, dialect, [], ["LLM call failed: ".data ++ e], [], none, 0, false⟩

/-- The `ReasonerOutput` built when both JSON parses fail
(`sqlm.py` lines 465-487); `text` is the fence-stripped reply. -/
def parseFailOutput (cmd : CommandPayload) (dialect text : Str) :
    ParseFail → ReasonerOutput
  | .salvage ex ex2 =>
    ⟨none, cmd.intent, dialect, [],
     ["Failed to parse model JSON: ".data ++ ex ++ ". Salvage attempt also failed: ".data ++ ex2,
      "raw_output_snippet:".data ++ text.take 1000],
     [], none, 0, false⟩
  | .noBlob ex =>
    ⟨none, cmd.intent, dialect, [],
     ["Model output not valid JSON and no JSON blob found: ".data ++ ex
        ++ ". Raw output snippet: ".data ++ text.take 1000],
     [], none, 0, false⟩

/-- Line 496: `parse_and_validate_sql(sql, dialect) if sql else
(False, ["No SQL returned"], {})`. -/
def validationStep (venv : ValidatorEnv) (dialect : Str) (sqlField : Option Str) :
    Bool × List Str × Metadata :=
  match sqlField with
  | some s => if s = [] then (false, ["No SQL returned".data], [])
              else parse_and_validate_sql venv s dialect
  | none => (false, ["No SQL returned".data], [])

/-- The tail of `generate()` after a successful JSON parse
(`sqlm.py` lines 489-520): field extraction, validation, error/warning
assembly, the safety decision (line 506) and the confidence score. -/
def assembleOutput (venv : ValidatorEnv) (cmd : CommandPayload) (dialect : Str)
    (j : JsonVal) : ReasonerOutput :=
  let intent := pyOrStr j.intent (pyOrStr (some cmd.intent) "select".data)
  let v := validationStep venv dialect j.sql
  let ok := v.1
  let blocked := j.destructive && !cmd.allow_destructive
  let errors :=
    (if !ok then ["SQL parse/validation failed.".data] else [])
      ++ (if blocked then ["Destructive operation detected but allow_destructive is False.".data] else [])
  let warnings :=
    v.2.1 ++ (if blocked then ["Blocked destructive operation because allow_destructive=False".data] else [])
  let safe := ok && (!j.destructive || cmd.allow_destructive) && !j.clarify_required
  let confidence : ℚ := if ok && !j.clarify_required then 9/10 else 4/10
  ⟨j.sql, intent, dialect, warnings, errors, v.2.2, j.explanation, confidence, safe⟩

/-- `GeminiReasoner._prepare_prompt` (`sqlm.py` lines 372-375): note the
dialect is not lowercased here. -/
def prepare_prompt (r : ReasonerState) (cmd : CommandPayload) : Str :=
  build_user_prompt r.schema_snapshot (pyOrStr cmd.normalized cmd.raw_nl)
    (pyOrStr cmd.dialect r.default_dialect)

/-- `GeminiReasoner.generate` (`sqlm.py` lines 402-520). -/
def generate (env : GenEnv) (r : ReasonerState) (cmd : CommandPayload) :
    ReasonerOutput :=
  let dialect := toLowerStr (pyOrStr cmd.dialect r.default_dialect)
  let prompt := prepare_prompt r cmd
  match env.backend prompt with
  | .error e => llmFailOutput cmd dialect e
  | .ok raw =>
    let text := stripFences (pyStrip raw)
    match tryParseJson env text with
    | .error pf => parseFailOutput cmd dialect text pf
    | .ok j => assembleOutput env.validator cmd dialect j

/-!
## Embedding of `schema_awareness.py` (Schema Snapshot Manager)

File writes are modelled as fields of the module state (`schemaFile`,
`metadataFile`, `snapshotFiles`), and the `print` diagnostics relevant to
the claims (connection failure / unsupported type) as a returned log list.
Database drivers, `hashlib.md5`, `datetime.now` and the introspection
queries are oracle parameters in `SamEnv`.
-/

/-- A column dict as built by `_get_table_schema` (only the keys read by
`_format_schema_text`; engine-specific extras like `extra` /
`primary_key` are never read by the formatter). `default` is `none` for
Python-falsy defaults (`None`, `''`). -/
structure ColE where
  name : Str
  ctype : Str
  nullable : Bool
  default : Option Str
deriving DecidableEq

/-- A foreign-key dict (`column`, `references_table`, `references_column`). -/
structure FkE where
  col : Str
  refTable : Str
  refCol : Str
deriving DecidableEq

/-- `TableSchema` from `schema_awareness.py`. -/
structure TableSchemaE where
  name : Str
  columns : List ColE
  primary_keys : List Str
  foreign_keys : List FkE
  indexes : List Str
  row_count : Option Nat
deriving DecidableEq

/-- `SchemaMetadata` from `schema_awareness.py`. -/
structure SchemaMetadataE where
  database_name : Str
  database_type : Str
  created_at : Str
  last_updated : Str
  version : Nat
  table_count : Nat
  schema_hash : Str
  tables : List Str
deriving DecidableEq

/-- `DatabaseType` enum. -/
inductive DbTypeE where
  | mysql
  | postgresql
  | sqlite
deriving DecidableEq

/-- The `.value` of the enum. -/
def DbTypeE.value : DbTypeE → Str
  | .mysql => "mysql".data
  | .postgresql => "postgres".data
  | .sqlite => "sqlite".data

/-- The `SchemaAwarenessModule` state observable by the claims: connection
presence, `db_type`, `current_metadata`, and the written files.
`specialized_snapshots` is the id → path dict, `snapshotFiles` the written
snapshot files (path → content). -/
structure SamSt where
  connected : Bool
  db_type : Option DbTypeE
  current_metadata : Option SchemaMetadataE
  schemaFile : Option Str
  metadataFile : Option SchemaMetadataE
  specialized_snapshots : List (Str × Str)
  snapshotFiles : List (Str × Str)
deriving DecidableEq

/-- `SchemaAwarenessModule.__init__` state. -/
def mkSam : SamSt := ⟨false, none, none, none, none, [], []⟩

/-- Per-call oracle for the module's externals: `tables` is the result of
the table-listing query of `_get_tables` (its internal exception handler
collapses query failures to `[]`, so `[]` covers those too); `describe` is
`_get_table_schema` (total in the code: its handler returns an empty
`TableSchema` on error); `dbName` is `_get_database_name`; `now` is
`datetime.now().isoformat()` (or the snapshot-id timestamp); `md5` is
`hashlib.md5(...).hexdigest()`. -/
structure SamEnv where
  tables : List Str
  describe : Str → TableSchemaE
  dbName : Str
  now : Str
  md5 : Str → Str

/-- `_get_tables`: empty when no connection, otherwise the query result. -/
def getTablesInternal (env : SamEnv) (st : SamSt) : List Str :=
  if st.connected then env.tables else []

/-- Public `get_tables` (lines 209-232): result plus printed warnings. -/
def get_tables (env : SamEnv) (st : SamSt) : List Str × List Str :=
  if st.connected then (getTablesInternal env st, [])
  else ([], ["[SAM] Warning: No database connection. Call connect_database() first.".data])

/-- The per-table block of `_format_schema_text` (lines 387-409). -/
def tableLines (ts_pair : Str × TableSchemaE) : List Str :=
  let ts := ts_pair.2
  let colLines := ts.columns.map (fun col =>
    let nullable := if col.nullable then "NULL".data else "NOT NULL".data
    let dflt := match col.default with
      | some d => if d = [] then ([] : Str) else "DEFAULT ".data ++ d
      | none => ([] : Str)
    let pk := if ts.primary_keys.contains col.name then "PRIMARY KEY".data else ([] : Str)
    pyStrip ("  - ".data ++ col.name ++ " (".data ++ col.ctype ++ ") ".data
      ++ nullable ++ " ".data ++ dflt ++ " ".data ++ pk))
  let fkLines :=
    if ts.foreign_keys = [] then []
    else "  Foreign Keys:".data :: ts.foreign_keys.map (fun fk =>
      "    - ".data ++ fk.col ++ " → ".data ++ fk.refTable ++ ".".data ++ fk.refCol)
  let rowLine := match ts.row_count with
    | some n => ["  Rows: ".data ++ (toString n).data]
    | none => []
  (("\nTable ".data ++ ts_pair.1 ++ ":".data) :: colLines) ++ fkLines ++ rowLine

/-- `_format_schema_text(tables_data, database_name)` (lines 383-411).
`tables_data` is the insertion-ordered dict as an association list. -/
def format_schema_text (tables_data : List (Str × TableSchemaE))
    (database_name : Str) : Str :=
  let header := "Database: ".data ++ database_name ++ "\n".data
  List.intercalate "\n".data (header :: (tables_data.map tableLines).flatten)

/-- `generate_full_schema` (lines 413-477) as a state transition returning
the success flag.  The `db_type = none` corner reproduces the code: the
schema text is written first, then `self.db_type.value` raises and the
handler returns `False` without updating the metadata. -/
def generate_full_schema (env : SamEnv) (st : SamSt) : Bool × SamSt :=
  if ¬ st.connected then (false, st)
  else
    let tables := getTablesInternal env st
    if tables = [] then (false, st)
    else
      let tables_data := tables.map (fun t => (t, env.describe t))
      let schema_text := format_schema_text tables_data env.dbName
      let st1 := { st with schemaFile := some schema_text }
      match st.db_type with
      | none => (false, st1)
      | some dbt =>
        let version := match st.current_metadata with
          | some m => m.version + 1
          | none => 1
        let created := match st.current_metadata with
          | some m => m.created_at
          | none => env.now
        let md : SchemaMetadataE :=
          ⟨env.dbName, dbt.value, created, env.now, version,
           tables.length, env.md5 schema_text, tables⟩
        (true, { st1 with current_metadata := some md, metadataFile := some md })

/-- The validation loop of `create_specialized_snapshot` (lines 525-530):
describe each requested table in order, failing on the first name not in
the current table list. -/
def collectTables (env : SamEnv) (available : List Str) :
    List Str → Option (List (Str × TableSchemaE))
  | [] => some []
  | t :: rest =>
    if available.contains t then
      match collectTables env available rest with
      | some l => some ((t, env.describe t) :: l)
      | none => none
    else none

/-- `create_specialized_snapshot(table_names, snapshot_id)` (lines
500-549).  The `os.path.join(output_dir, ...)` path is modelled by the file
name itself (no claim inspects the directory part). -/
def create_specialized_snapshot (env : SamEnv) (st : SamSt)
    (table_names : List Str) (snapshot_id : Option Str) : Option Str × SamSt :=
  if ¬ st.connected then (none, st)
  else
    let sid := match snapshot_id with
      | some s => if s = [] then "specialized_".data ++ env.now else s
      | none => "specialized_".data ++ env.now
    let snapshot_file := sid ++ ".txt".data
    let available := getTablesInternal env st
    match collectTables env available table_names with
    | none => (none, st)
    | some tables_data =>
      let schema_text := format_schema_text tables_data env.dbName
      (some snapshot_file,
       { st with
         snapshotFiles := st.snapshotFiles ++ [(snapshot_file, schema_text)],
         specialized_snapshots := st.specialized_snapshots ++ [(sid, snapshot_file)] })

/-- The credential mask used by `connect_database`. -/
def redactMask : Str := "******".data

/-- Connection parameters read by the failure handler of
`connect_database` (only `password` is consulted there; a non-string or
empty password skips redaction, modelled by `none` / `some []`). -/
structure ConnectParams where
  password : Option Str := none
deriving DecidableEq

/-- The redacted diagnostic printed by the `except` branch of
`connect_database` (lines 154-164). -/
def connFailMsg (params : ConnectParams) (e : Str) : Str :=
  let masked := match params.password with
    | some p => if p = [] then e else replaceAll p redactMask e
    | none => e
  "[SAM] ✗ Database connection failed: ".data ++ masked

/-- The common body of the three supported branches of `connect_database`:
`self.db_type` is assigned before the driver call, so it is set even when
the driver raises; on success the connection is stored and
`generate_full_schema` is triggered, and its flag is the return value. -/
def connectWith (dbt : DbTypeE) (params : ConnectParams)
    (driver : Except Str Unit) (env : SamEnv) (st : SamSt) :
    Bool × SamSt × List Str :=
  let st1 := { st with db_type := some dbt }
  match driver with
  | .error e => (false, st1, [connFailMsg params e])
  | .ok _ =>
    let st2 := { st1 with connected := true }
    let r := generate_full_schema env st2
    (r.1, r.2, [])

/-- `connect_database(db_type, **connection_params)` (lines 91-164).
`driver` is the engine driver call: `.error e` models any exception raised
while connecting (including e.g. the `KeyError` for a missing SQLite
`database` parameter), with `e = str(exception)`. -/
def connect_database (dbType : Str) (params : ConnectParams)
    (driver : Except Str Unit) (env : SamEnv) (st : SamSt) :
    Bool × SamSt × List Str :=
  let t := toLowerStr dbType
  if t = "mysql".data then connectWith .mysql params driver env st
  else if t = "postgres".data || t = "postgresql".data then
    connectWith .postgresql params driver env st
  else if t = "sqlite".data then connectWith .sqlite params driver env st
  else (false, st, ["[SAM] ✗ Unsupported database type: ".data ++ dbType])

/-!
## Claim-support definitions
-/

/-- Does a `generate` call reach the post-parse validation path with a
non-empty `sql` field (the only path on which the validator's metadata
dict is produced)? -/
def parsedSqlPath (env : GenEnv) (r : ReasonerState) (cmd : CommandPayload) : Bool :=
  match env.backend (prepare_prompt r cmd) with
  | .error _ => false
  | .ok raw =>
    match tryParseJson env (stripFences (pyStrip raw)) with
    | .error _ => false
    | .ok j =>
      match j.sql with
      | some s => !(s == [])
      | none => false

/-- A sequence of `generate_full_schema` calls (with per-call oracle
environments), returning the list of success flags and the final state. -/
def runGenSeq : List SamEnv → SamSt → List Bool × SamSt
  | [], st => ([], st)
  | e :: rest, st =>
    let r := generate_full_schema e st
    let q := runGenSeq rest r.2
    (r.1 :: q.1, q.2)

/-- The stored metadata version (0 when no metadata exists yet). -/
def versionOf (st : SamSt) : Nat :=
  match st.current_metadata with
  | some m => m.version
  | none => 0

/-!
## Claims
-/

/-- C1: for every combination of the four booleans (validation outcome,
destructive flag, allow-destructive flag, clarify-required flag), the
safety decision computed inside `generate()` (line 506) satisfies
`safeToExecute = validationOk AND (NOT destructive OR allowDestructive)
AND NOT clarifyRequired`.  The four booleans range over all 16 cases:
`j.destructive`, `j.clarify_required` and `cmd.allow_destructive` are
universally quantified, and the validation outcome takes both values as
`j.sql` ranges over its domain. -/
theorem C1_safety_gate (env : GenEnv) (r : ReasonerState) (cmd : CommandPayload)
    (raw : Str) (j : JsonVal)
    (hb : env.backend (prepare_prompt r cmd) = .ok raw)
    (hj : tryParseJson env (stripFences (pyStrip raw)) = .ok j) :
    (generate env r cmd).safe_to_execute =
      ((validationStep env.validator
          (toLowerStr (pyOrStr cmd.dialect r.default_dialect)) j.sql).1
        && (!j.destructive || cmd.allow_destructive) && !j.clarify_required) := by
  simp only [generate, hb, hj, assembleOutput]

/-- Witness for C1 at a concrete input: mock-style backend reply parsed to
a destructive, non-clarifying JSON object with a valid SQL string, under
`allow_destructive = false`: the gate denies execution, matching the
formula. -/
theorem C1_safety_gate_witness :
    (generate
        ⟨⟨false, fun _ _ => .error [], false, fun _ => none⟩,
         fun _ => .ok "x".data,
         fun t => if t = "x".data
           then .ok ⟨some "DROP TABLE users".data, some "other".data, true, false, none⟩
           else .error "e".data⟩
        (mkReasoner "Database: d".data)
        ⟨"select".data, "drop users".data, none, none, none, false⟩).safe_to_execute =
      ((validationStep
          (ValidatorEnv.mk false (fun _ _ => .error []) false (fun _ => none))
          (toLowerStr (pyOrStr none DEFAULT_DIALECT))
          (some "DROP TABLE users".data)).1
        && (!true || false) && !false) :=
  C1_safety_gate _ _ _ "x".data ⟨some "DROP TABLE users".data, some "other".data, true, false, none⟩
    rfl rfl

/-- `generate` unfolded to its top-level case analysis (the `let`
bindings of the source reduced). -/
theorem generate_unfold (env : GenEnv) (r : ReasonerState) (cmd : CommandPayload) :
    generate env r cmd =
      match env.backend (prepare_prompt r cmd) with
      | .error e =>
        llmFailOutput cmd (toLowerStr (pyOrStr cmd.dialect r.default_dialect)) e
      | .ok raw =>
        match tryParseJson env (stripFences (pyStrip raw)) with
        | .error pf =>
          parseFailOutput cmd (toLowerStr (pyOrStr cmd.dialect r.default_dialect))
            (stripFences (pyStrip raw)) pf
        | .ok j =>
          assembleOutput env.validator cmd
            (toLowerStr (pyOrStr cmd.dialect r.default_dialect)) j := rfl

/-- The validator's metadata dict always carries the keys `tables`,
`columns` and `pretty`, on every branch of `parse_and_validate_sql`. -/
theorem validate_metadata_keys (venv : ValidatorEnv) (sql dialect : Str) :
    hasKey (parse_and_validate_sql venv sql dialect).2.2 "tables".data = true ∧
    hasKey (parse_and_validate_sql venv sql dialect).2.2 "columns".data = true ∧
    hasKey (parse_and_validate_sql venv sql dialect).2.2 "pretty".data = true := by
  unfold parse_and_validate_sql
  by_cases h1 : sql = []
  · simp only [if_pos h1]
    exact ⟨rfl, rfl, rfl⟩
  · simp only [if_neg h1]
    cases hg : venv.sqlglotAvail with
    | false => exact ⟨rfl, rfl, rfl⟩
    | true =>
      cases hp : venv.parseOne sql dialect with
      | error e => exact ⟨rfl, rfl, rfl⟩
      | ok tc =>
        obtain ⟨tbls, cols⟩ := tc
        exact ⟨rfl, rfl, rfl⟩

/-- C2 (amended): the returned metadata mapping contains the keys
`tables`, `columns` and `pretty` exactly on the path where the model JSON
was parsed and carried a non-empty `sql` string; on the backend-failure,
JSON-parse-failure and missing/empty-`sql` paths, `generate()` returns an
empty metadata mapping instead. -/
theorem C2_metadata_keys (env : GenEnv) (r : ReasonerState) (cmd : CommandPayload) :
    (parsedSqlPath env r cmd = true →
       hasKey (generate env r cmd).metadata "tables".data = true ∧
       hasKey (generate env r cmd).metadata "columns".data = true ∧
       hasKey (generate env r cmd).metadata "pretty".data = true) ∧
    (parsedSqlPath env r cmd = false → (generate env r cmd).metadata = []) := by
  rw [generate_unfold]
  unfold parsedSqlPath
  cases hb : env.backend (prepare_prompt r cmd) with
  | error e => exact ⟨fun h => by simp at h, fun _ => rfl⟩
  | ok raw =>
    dsimp only
    cases hj : tryParseJson env (stripFences (pyStrip raw)) with
    | error pf =>
      refine ⟨fun h => by simp at h, fun _ => ?_⟩
      cases pf <;> rfl
    | ok j =>
      dsimp only
      cases hs : j.sql with
      | none =>
        exact ⟨fun h => by simp at h,
               fun _ => by simp [assembleOutput, validationStep, hs]⟩
      | some s =>
        by_cases hse : s = []
        · subst hse
          exact ⟨fun h => by simp at h,
                 fun _ => by simp [assembleOutput, validationStep, hs]⟩
        · refine ⟨fun _ => ?_, fun h => absurd (by simpa using h) hse⟩
          simp only [assembleOutput, validationStep, hs, if_neg hse]
          exact validate_metadata_keys env.validator s _

/-- Witness for C2 at concrete inputs: on a parsed reply with non-empty
SQL the key `tables` is present, and on a reply that is not JSON (and has
no brace-delimited blob) the metadata is empty. -/
theorem C2_metadata_keys_witness :
    (hasKey (generate
        ⟨⟨false, fun _ _ => .error [], false, fun _ => none⟩,
         fun _ => .ok "x".data,
         fun t => if t = "x".data
           then .ok ⟨some "SELECT * FROM t".data, some "select".data, false, false, none⟩
           else .error "e".data⟩
        (mkReasoner "Database: d".data)
        ⟨"select".data, "show t".data, none, none, none, false⟩).metadata
      "tables".data = true) ∧
    ((generate
        ⟨⟨false, fun _ _ => .error [], false, fun _ => none⟩,
         fun _ => .ok "hello".data,
         fun _ => .error "Expecting value: line 1 column 1 (char 0)".data⟩
        (mkReasoner "Database: d".data)
        ⟨"select".data, "show t".data, none, none, none, false⟩).metadata = []) :=
  ⟨((C2_metadata_keys
      ⟨⟨false, fun _ _ => .error [], false, fun _ => none⟩,
       fun _ => .ok "x".data,
       fun t => if t = "x".data
         then .ok ⟨some "SELECT * FROM t".data, some "select".data, false, false, none⟩
         else .error "e".data⟩
      (mkReasoner "Database: d".data)
      ⟨"select".data, "show t".data, none, none, none, false⟩).1 (by decide)).1,
   (C2_metadata_keys
      ⟨⟨false, fun _ _ => .error [], false, fun _ => none⟩,
       fun _ => .ok "hello".data,
       fun _ => .error "Expecting value: line 1 column 1 (char 0)".data⟩
      (mkReasoner "Database: d".data)
      ⟨"select".data, "show t".data, none, none, none, false⟩).2 (by decide)⟩

/-- C2 (counterexample to the claim as stated): a `generate()` call on the
error path where the backend reply is not JSON and contains no JSON blob
returns `metadata = {}`, which does not contain the key `tables`. -/
theorem C2_metadata_keys_cex :
    hasKey (generate
        ⟨⟨false, fun _ _ => .error [], false, fun _ => none⟩,
         fun _ => .ok "hello".data,
         fun _ => .error "Expecting value: line 1 column 1 (char 0)".data⟩
        (mkReasoner "Database: d".data)
        ⟨"select".data, "show t".data, none, none, none, false⟩).metadata
      "tables".data = false := by decide

/-- When the schema exceeds the budget, the built prompt is the assembled
text around the truncated schema plus marker. -/
theorem build_prompt_long (schema c d : Str)
    (h : MAX_SCHEMA_PROMPT_CHARS < schema.length) :
    build_user_prompt schema c d =
      BASE_SYSTEM_PROMPT ++ nl2 ++ schemaHdr
        ++ (schema.take MAX_SCHEMA_PROMPT_CHARS ++ truncMarker)
        ++ nl2 ++ dialectHdr ++ d ++ nl2 ++ userHdr ++ c ++ nl2 ++ promptTail := by
  unfold build_user_prompt
  rw [if_pos h]

/-- The truncation marker occurs in the prompt built from an oversized
schema. -/
theorem prompt_marker_of_long (schema c d : Str)
    (h : MAX_SCHEMA_PROMPT_CHARS < schema.length) :
    SubstrP truncMarker (build_user_prompt schema c d) := by
  rw [build_prompt_long schema c d h]
  refine ⟨BASE_SYSTEM_PROMPT ++ nl2 ++ schemaHdr ++ schema.take MAX_SCHEMA_PROMPT_CHARS,
          nl2 ++ dialectHdr ++ d ++ nl2 ++ userHdr ++ c ++ nl2 ++ promptTail, ?_⟩
  simp [List.append_assoc]

/-- The exact length of the prompt built from an oversized schema: the
schema contributes exactly budget + marker, the rest is the fixed
scaffolding plus dialect and command. -/
theorem prompt_length_of_long (schema c d : Str)
    (h : MAX_SCHEMA_PROMPT_CHARS < schema.length) :
    (build_user_prompt schema c d).length =
      BASE_SYSTEM_PROMPT.length + schemaHdr.length + dialectHdr.length
        + userHdr.length + promptTail.length + 4 * nl2.length + d.length + c.length
        + (MAX_SCHEMA_PROMPT_CHARS + truncMarker.length) := by
  rw [build_prompt_long schema c d h]
  simp only [List.length_append, List.length_take]
  rw [Nat.min_eq_left (Nat.le_of_lt h)]
  omega

/-- C3 (amended): for a schema text exceeding the budget the built prompt
contains the truncation marker, and its total length is the budget plus
the marker length plus the fixed prompt scaffolding and the lengths of the
dialect and command texts (the schema's contribution alone is capped at
budget + marker length; the whole prompt is longer than budget + marker
length by exactly that fixed overhead). -/
theorem C3_prompt_truncation (schema c d : Str)
    (h : MAX_SCHEMA_PROMPT_CHARS < schema.length) :
    SubstrP truncMarker (build_user_prompt schema c d) ∧
    (build_user_prompt schema c d).length =
      BASE_SYSTEM_PROMPT.length + schemaHdr.length + dialectHdr.length
        + userHdr.length + promptTail.length + 4 * nl2.length + d.length + c.length
        + (MAX_SCHEMA_PROMPT_CHARS + truncMarker.length) :=
  ⟨prompt_marker_of_long schema c d h, prompt_length_of_long schema c d h⟩

/-- Witness for C3 (amended) at a concrete oversized schema. -/
theorem C3_prompt_truncation_witness :
    SubstrP truncMarker (build_user_prompt (List.replicate 14001 'a') [] []) ∧
    (build_user_prompt (List.replicate 14001 'a') [] []).length =
      BASE_SYSTEM_PROMPT.length + schemaHdr.length + dialectHdr.length
        + userHdr.length + promptTail.length + 4 * nl2.length
        + ([] : Str).length + ([] : Str).length
        + (MAX_SCHEMA_PROMPT_CHARS + truncMarker.length) :=
  C3_prompt_truncation (List.replicate 14001 'a') [] []
    (by rw [List.length_replicate]; decide)

/-- C3 (counterexample to the claim as stated): for a concrete schema one
character over the budget, the prompt does contain the marker but its
total length exceeds budget + marker length (the prompt also carries the
system prompt, headers, dialect and command). -/
theorem C3_prompt_truncation_cex :
    SubstrP truncMarker (build_user_prompt (List.replicate 14001 'a') "list users".data "mysql".data) ∧
    ¬ ((build_user_prompt (List.replicate 14001 'a') "list users".data "mysql".data).length
        ≤ MAX_SCHEMA_PROMPT_CHARS + truncMarker.length) := by
  have hlong : MAX_SCHEMA_PROMPT_CHARS < (List.replicate 14001 'a' : Str).length := by
    rw [List.length_replicate]; decide
  refine ⟨prompt_marker_of_long _ _ _ hlong, ?_⟩
  have hlen := prompt_length_of_long (List.replicate 14001 'a') "list users".data "mysql".data hlong
  have hpos : 0 < schemaHdr.length := by decide
  omega

/-- The snapshot validation loop fails whenever one of the requested names
is missing from the available table list. -/
theorem collectTables_none_of_missing (env : SamEnv) (available : List Str) :
    ∀ (names : List Str) (t : Str), t ∈ names → t ∉ available →
      collectTables env available names = none := by
  intro names
  induction names with
  | nil => intro t ht _; cases ht
  | cons a rest ih =>
    intro t ht hmiss
    rcases List.mem_cons.mp ht with rfl | hrest
    · have hct : available.contains t = false := by
        simp [List.contains, List.elem_eq_mem, hmiss]
      simp only [collectTables, hct]
      rfl
    · by_cases ha : available.contains a
      · simp only [collectTables, ha, if_pos]
        rw [ih t hrest hmiss]
      · simp only [collectTables, ha]
        rfl

/-- C4: if any requested table name is absent from the database's current
table list, `create_specialized_snapshot` returns `None` and leaves the
module state (in particular the set of written snapshot files and the
snapshot registry) unchanged — it never produces a partial snapshot. -/
theorem C4_specialized_snapshot_rejects (env : SamEnv) (st : SamSt)
    (names : List Str) (sid : Option Str) (t : Str)
    (ht : t ∈ names) (hmiss : t ∉ getTablesInternal env st) :
    create_specialized_snapshot env st names sid = (none, st) := by
  unfold create_specialized_snapshot
  by_cases hc : st.connected
  · simp only [hc]
    rw [collectTables_none_of_missing env (getTablesInternal env st) names t ht hmiss]
    simp
  · simp only [hc]
    simp

/-- Witness for C4: a connected module knowing only table `users` rejects
the request `["users", "ghost"]` outright, returning `None` with the state
untouched. -/
theorem C4_specialized_snapshot_rejects_witness :
    create_specialized_snapshot
      ⟨["users".data], fun t => ⟨t, [], [], [], [], none⟩, "db".data, "20240101".data, fun _ => "h".data⟩
      ⟨true, some .sqlite, none, none, none, [], []⟩
      ["users".data, "ghost".data] none =
      (none, ⟨true, some .sqlite, none, none, none, [], []⟩) :=
  C4_specialized_snapshot_rejects
    ⟨["users".data], fun t => ⟨t, [], [], [], [], none⟩, "db".data, "20240101".data, fun _ => "h".data⟩
    ⟨true, some .sqlite, none, none, none, [], []⟩
    ["users".data, "ghost".data] none "ghost".data
    (by decide) (by decide)

/-- C5: when both the direct JSON parse and the salvage parse of the
first-`{`-to-last-`}` slice fail, `generate()` returns (rather than
raising) an output with `sql = null`, `confidence = 0.0`,
`safeToExecute = false`, and an error entry containing the fence-stripped
raw output truncated to at most 1000 characters (never the unbounded raw
text). -/
theorem C5_parse_failure_output (env : GenEnv) (r : ReasonerState)
    (cmd : CommandPayload) (raw : Str) (pf : ParseFail)
    (hb : env.backend (prepare_prompt r cmd) = .ok raw)
    (hp : tryParseJson env (stripFences (pyStrip raw)) = .error pf) :
    (generate env r cmd).sql = none ∧
    (generate env r cmd).confidence = 0 ∧
    (generate env r cmd).safe_to_execute = false ∧
    ∃ err ∈ (generate env r cmd).errors,
      SubstrP ((stripFences (pyStrip raw)).take 1000) err ∧
      ((stripFences (pyStrip raw)).take 1000).length ≤ 1000 := by
  have hgen : generate env r cmd =
      parseFailOutput cmd (toLowerStr (pyOrStr cmd.dialect r.default_dialect))
        (stripFences (pyStrip raw)) pf := by
    rw [generate_unfold, hb]
    dsimp only
    rw [hp]
  rw [hgen]
  have hlen : ((stripFences (pyStrip raw)).take 1000).length ≤ 1000 := by
    rw [List.length_take]
    exact Nat.min_le_left _ _
  cases pf with
  | salvage ex ex2 =>
    refine ⟨rfl, rfl, rfl, "raw_output_snippet:".data ++ (stripFences (pyStrip raw)).take 1000,
            by simp [parseFailOutput], ?_, hlen⟩
    exact ⟨"raw_output_snippet:".data, [], by simp⟩
  | noBlob ex =>
    refine ⟨rfl, rfl, rfl,
      "Model output not valid JSON and no JSON blob found: ".data ++ ex
        ++ ". Raw output snippet: ".data ++ (stripFences (pyStrip raw)).take 1000,
      by simp [parseFailOutput], ?_, hlen⟩
    exact ⟨"Model output not valid JSON and no JSON blob found: ".data ++ ex
        ++ ". Raw output snippet: ".data, [], by simp⟩

/-- Witness for C5: a backend reply `hello` that is not JSON and has no
brace-delimited blob. -/
theorem C5_parse_failure_output_witness :
    ((generate
        ⟨⟨false, fun _ _ => .error [], false, fun _ => none⟩,
         fun _ => .ok "hello".data,
         fun _ => .error "Expecting value: line 1 column 1 (char 0)".data⟩
        (mkReasoner "Database: d".data)
        ⟨"select".data, "show t".data, none, none, none, false⟩).sql = none) ∧
    ((generate
        ⟨⟨false, fun _ _ => .error [], false, fun _ => none⟩,
         fun _ => .ok "hello".data,
         fun _ => .error "Expecting value: line 1 column 1 (char 0)".data⟩
        (mkReasoner "Database: d".data)
        ⟨"select".data, "show t".data, none, none, none, false⟩).confidence = 0) ∧
    ((generate
        ⟨⟨false, fun _ _ => .error [], false, fun _ => none⟩,
         fun _ => .ok "hello".data,
         fun _ => .error "Expecting value: line 1 column 1 (char 0)".data⟩
        (mkReasoner "Database: d".data)
        ⟨"select".data, "show t".data, none, none, none, false⟩).safe_to_execute = false) ∧
    ∃ err ∈ (generate
        ⟨⟨false, fun _ _ => .error [], false, fun _ => none⟩,
         fun _ => .ok "hello".data,
         fun _ => .error "Expecting value: line 1 column 1 (char 0)".data⟩
        (mkReasoner "Database: d".data)
        ⟨"select".data, "show t".data, none, none, none, false⟩).errors,
      SubstrP ((stripFences (pyStrip "hello".data)).take 1000) err ∧
      ((stripFences (pyStrip "hello".data)).take 1000).length ≤ 1000 :=
  C5_parse_failure_output
    ⟨⟨false, fun _ _ => .error [], false, fun _ => none⟩,
     fun _ => .ok "hello".data,
     fun _ => .error "Expecting value: line 1 column 1 (char 0)".data⟩
    (mkReasoner "Database: d".data)
    ⟨"select".data, "show t".data, none, none, none, false⟩
    "hello".data (.noBlob "Expecting value: line 1 column 1 (char 0)".data)
    rfl rfl

/-- `connectWith` on a raising driver: returns false with `db_type` set
and the single redacted diagnostic. -/
theorem connectWith_error (dbt : DbTypeE) (params : ConnectParams) (e : Str)
    (env : SamEnv) (st : SamSt) :
    connectWith dbt params (.error e) env st =
      (false, { st with db_type := some dbt }, [connFailMsg params e]) := rfl

/-- The failure diagnostic for a non-empty password applies the full
replacement of the password by the mask. -/
theorem connFailMsg_some (p e : Str) (hp : p ≠ []) :
    connFailMsg ⟨some p⟩ e =
      "[SAM] ✗ Database connection failed: ".data ++ replaceAll p redactMask e := by
  unfold connFailMsg
  dsimp only
  rw [if_neg hp]

/-- C6 (amended): on a failed connection attempt for a supported engine
with a non-empty string password, `connect_database` returns false and
surfaces exactly one diagnostic, whose driver-message part is the driver
error with every occurrence of the password replaced by `******`; provided
the password contains no mask character `'*'`, the password does not occur
anywhere in that redacted driver message.  (The replacement cannot be
occurrence-free for passwords containing `'*'`, see the counterexample.) -/
theorem C6_credential_redaction (dbType : Str) (p e : Str)
    (env : SamEnv) (st : SamSt)
    (hsupp : toLowerStr dbType = "mysql".data ∨ toLowerStr dbType = "postgres".data
      ∨ toLowerStr dbType = "postgresql".data ∨ toLowerStr dbType = "sqlite".data)
    (hp : p ≠ []) (hstar : ∀ ch ∈ p, ch ≠ '*') :
    (connect_database dbType ⟨some p⟩ (.error e) env st).1 = false ∧
    (connect_database dbType ⟨some p⟩ (.error e) env st).2.2 =
      ["[SAM] ✗ Database connection failed: ".data ++ replaceAll p redactMask e] ∧
    ¬ SubstrP p (replaceAll p redactMask e) := by
  have hmask := connFailMsg_some p e hp
  have hnoocc : ¬ SubstrP p (replaceAll p redactMask e) :=
    replaceAll_no_occurrence p redactMask e hp hstar (by decide) (by decide)
  have hcd : ∃ dbt, connect_database dbType ⟨some p⟩ (.error e) env st
      = connectWith dbt ⟨some p⟩ (.error e) env st := by
    rcases hsupp with h | h | h | h
    · exact ⟨.mysql, by unfold connect_database; rw [h]; rfl⟩
    · exact ⟨.postgresql, by unfold connect_database; rw [h]; rfl⟩
    · exact ⟨.postgresql, by unfold connect_database; rw [h]; rfl⟩
    · exact ⟨.sqlite, by unfold connect_database; rw [h]; rfl⟩
  obtain ⟨dbt, hcd⟩ := hcd
  rw [hcd, connectWith_error]
  exact ⟨rfl, by rw [show ((false, { st with db_type := some dbt },
      [connFailMsg (ConnectParams.mk (some p)) e]) :
        Bool × SamSt × List Str).2.2 = [connFailMsg ⟨some p⟩ e] from rfl, hmask], hnoocc⟩

/-- Witness for C6 (amended) at a concrete failed MySQL connection whose
driver error embeds the password `secret`. -/
theorem C6_credential_redaction_witness :
    ((connect_database "mysql".data ⟨some "secret".data⟩
        (.error "Access denied using password secret".data)
        ⟨[], fun t => ⟨t, [], [], [], [], none⟩, "db".data, "t0".data, fun _ => "h".data⟩
        mkSam).1 = false) ∧
    ((connect_database "mysql".data ⟨some "secret".data⟩
        (.error "Access denied using password secret".data)
        ⟨[], fun t => ⟨t, [], [], [], [], none⟩, "db".data, "t0".data, fun _ => "h".data⟩
        mkSam).2.2 =
      ["[SAM] ✗ Database connection failed: ".data
        ++ replaceAll "secret".data redactMask "Access denied using password secret".data]) ∧
    ¬ SubstrP "secret".data
      (replaceAll "secret".data redactMask "Access denied using password secret".data) :=
  C6_credential_redaction "mysql".data "secret".data
    "Access denied using password secret".data
    ⟨[], fun t => ⟨t, [], [], [], [], none⟩, "db".data, "t0".data, fun _ => "h".data⟩
    mkSam (Or.inl (by decide)) (by decide) (by decide)

/-- C6 (counterexample to the claim as stated): with the one-character
password `*`, the driver error `*` is redacted to `******`, which still
contains the password verbatim — the surfaced error text contains the
password even though every occurrence was replaced. -/
theorem C6_credential_redaction_cex :
    substrB "*".data
      ((connect_database "mysql".data ⟨some "*".data⟩ (.error "*".data)
          ⟨[], fun t => ⟨t, [], [], [], [], none⟩, "db".data, "t0".data, fun _ => "h".data⟩
          mkSam).2.2.headD []) = true := by decide

/-- A `sqlglot parse error: ...` message is never the destructive-keyword
warning (their first characters differ). -/
theorem sqlglot_err_ne_destructive (e : Str) :
    "sqlglot parse error: ".data ++ e ≠ destructiveWarning := by
  intro h
  have h1 : "sqlglot parse error: ".data ++ e
      = 's' :: ("qlglot parse error: ".data ++ e) := rfl
  have h2 : destructiveWarning
      = 'D' :: "estructive keyword detected (drop/alter/delete/truncate)".data := rfl
  rw [h1, h2] at h
  injection h with h3 _
  exact absurd h3 (by decide)

/-- C7 (amended): for every non-empty SQL string containing
`drop`/`alter`/`delete`/`truncate` as a case-insensitive whole word, the
validator's warnings include the destructive-keyword warning whenever no
real SQL parser is available, or the parser is available and parsing
succeeds; and for `SELECT * FROM t` no destructive warning is ever
emitted.  (When the parser is available and parsing fails, the code
returns only the parse error and drops the keyword warning, see the
counterexample.) -/
theorem C7_destructive_keyword :
    (∀ (venv : ValidatorEnv) (sql dialect : Str),
        sql ≠ [] → hasDestructiveKeyword sql = true →
        (venv.sqlglotAvail = false ∨ ∃ tc, venv.parseOne sql dialect = .ok tc) →
        destructiveWarning ∈ (parse_and_validate_sql venv sql dialect).2.1) ∧
    (∀ (venv : ValidatorEnv) (dialect : Str),
        destructiveWarning ∉ (parse_and_validate_sql venv "SELECT * FROM t".data dialect).2.1) := by
  constructor
  · intro venv sql dialect hne hk hmode
    unfold parse_and_validate_sql
    rw [if_neg hne]
    dsimp only
    rw [hk]
    rcases hmode with hav | ⟨tc, hok⟩
    · rw [hav]
      simp
    · obtain ⟨tbls, cols⟩ := tc
      cases hg : venv.sqlglotAvail with
      | false => simp
      | true =>
        rw [hok]
        dsimp only
        split
        · split <;> simp
        · exact absurd rfl (by assumption)
  · intro venv dialect hmem
    unfold parse_and_validate_sql at hmem
    rw [if_neg (by decide : ¬("SELECT * FROM t".data = ([] : Str)))] at hmem
    dsimp only at hmem
    rw [show hasDestructiveKeyword "SELECT * FROM t".data = false from by decide] at hmem
    cases hg : venv.sqlglotAvail with
    | false =>
      rw [hg] at hmem
      simp at hmem
    | true =>
      rw [hg] at hmem
      cases hok : venv.parseOne "SELECT * FROM t".data dialect with
      | error e =>
        rw [hok] at hmem
        simp at hmem
        exact sqlglot_err_ne_destructive e hmem.symm
      | ok tc =>
        obtain ⟨tbls, cols⟩ := tc
        rw [hok] at hmem
        simp at hmem
        exact absurd hmem.2 (by decide)

/-- Witness for C7 (amended): `DROP TABLE x` triggers the warning in
fallback mode and in parser mode with a successful parse, and
`SELECT * FROM t` never does (fallback instance). -/
theorem C7_destructive_keyword_witness :
    destructiveWarning ∈ (parse_and_validate_sql
      ⟨false, fun _ _ => .error [], false, fun _ => none⟩
      "DROP TABLE x".data "mysql".data).2.1 ∧
    destructiveWarning ∈ (parse_and_validate_sql
      ⟨true, fun _ _ => .ok (["x".data], []), false, fun _ => none⟩
      "DROP TABLE x".data "mysql".data).2.1 ∧
    destructiveWarning ∉ (parse_and_validate_sql
      ⟨false, fun _ _ => .error [], false, fun _ => none⟩
      "SELECT * FROM t".data "mysql".data).2.1 :=
  ⟨C7_destructive_keyword.1 ⟨false, fun _ _ => .error [], false, fun _ => none⟩
      "DROP TABLE x".data "mysql".data (by decide) (by decide) (Or.inl rfl),
   C7_destructive_keyword.1 ⟨true, fun _ _ => .ok (["x".data], []), false, fun _ => none⟩
      "DROP TABLE x".data "mysql".data (by decide) (by decide)
      (Or.inr ⟨(["x".data], []), rfl⟩),
   C7_destructive_keyword.2 ⟨false, fun _ _ => .error [], false, fun _ => none⟩
      "mysql".data⟩

/-- C7 (counterexample to the claim as stated): `drop table x )(` contains
`drop` as a whole word, but with the parser available and the parse
failing, `parse_and_validate_sql` returns only the parse error and no
destructive-keyword warning. -/
theorem C7_destructive_keyword_cex :
    hasDestructiveKeyword "drop table x )(".data = true ∧
    destructiveWarning ∉ (parse_and_validate_sql
      ⟨true, fun _ _ => .error "ParseError: unbalanced parentheses".data,
       false, fun _ => none⟩
      "drop table x )(".data "mysql".data).2.1 := by decide

/-- One successful `generate_full_schema` call: connected, engine tag set,
non-empty table list.  It returns true, bumps the version by exactly one,
and leaves the connection and engine tag unchanged. -/
theorem genFullSchema_success_step (env : SamEnv) (st : SamSt)
    (hc : st.connected = true) (hd : st.db_type.isSome)
    (ht : env.tables ≠ []) :
    (generate_full_schema env st).1 = true ∧
    versionOf (generate_full_schema env st).2 = versionOf st + 1 ∧
    (generate_full_schema env st).2.connected = st.connected ∧
    (generate_full_schema env st).2.db_type = st.db_type := by
  unfold generate_full_schema
  rw [hc]
  have hgt : getTablesInternal env st = env.tables := by
    unfold getTablesInternal
    rw [hc]
    rfl
  rw [hgt]
  simp only [if_neg ht]
  obtain ⟨dbt, hdb⟩ := Option.isSome_iff_exists.mp hd
  rw [hdb]
  cases hm : st.current_metadata with
  | none =>
    simp [versionOf, hm]
  | some m =>
    simp [versionOf, hm]

/-- C8: starting from any state with a live connection, running N
consecutive `generate_full_schema` calls whose table listings are all
non-empty yields N successes, and the stored metadata version after the
sequence equals the version before plus N (with version 0 standing for
"no prior metadata", so the version is 1 after the first successful
generation when none existed). -/
theorem C8_version_monotonic (envs : List SamEnv) (st : SamSt)
    (hc : st.connected = true) (hd : st.db_type.isSome)
    (ht : ∀ e ∈ envs, e.tables ≠ []) :
    (runGenSeq envs st).1 = List.replicate envs.length true ∧
    versionOf (runGenSeq envs st).2 = versionOf st + envs.length := by
  induction envs generalizing st with
  | nil => exact ⟨rfl, rfl⟩
  | cons e rest ih =>
    obtain ⟨h1, h2, h3, h4⟩ := genFullSchema_success_step e st hc hd
      (ht e (by simp))
    have hc' : (generate_full_schema e st).2.connected = true := by rw [h3, hc]
    have hd' : (generate_full_schema e st).2.db_type.isSome := by rw [h4]; exact hd
    obtain ⟨ih1, ih2⟩ := ih (generate_full_schema e st).2 hc' hd'
      (fun e' he' => ht e' (by simp [he']))
    refine ⟨?_, ?_⟩
    · show (generate_full_schema e st).1 :: (runGenSeq rest (generate_full_schema e st).2).1
        = List.replicate (rest.length + 1) true
      rw [h1, ih1, List.replicate_succ]
    · show versionOf (runGenSeq rest (generate_full_schema e st).2).2
        = versionOf st + (rest.length + 1)
      rw [ih2, h2]
      omega

/-- Witness for C8: two successive successful generations starting from a
fresh connected state take the version from 0 (no metadata) to 2, the
first call producing version 1. -/
theorem C8_version_monotonic_witness :
    (runGenSeq
        [⟨["t".data], fun t => ⟨t, [], [], [], [], none⟩, "db".data, "t0".data, fun _ => "h".data⟩,
         ⟨["t".data, "u".data], fun t => ⟨t, [], [], [], [], none⟩, "db".data, "t1".data, fun _ => "h".data⟩]
        ⟨true, some .sqlite, none, none, none, [], []⟩).1 = [true, true] ∧
    versionOf (runGenSeq
        [⟨["t".data], fun t => ⟨t, [], [], [], [], none⟩, "db".data, "t0".data, fun _ => "h".data⟩,
         ⟨["t".data, "u".data], fun t => ⟨t, [], [], [], [], none⟩, "db".data, "t1".data, fun _ => "h".data⟩]
        ⟨true, some .sqlite, none, none, none, [], []⟩).2 = 0 + 2 :=
  C8_version_monotonic
    [⟨["t".data], fun t => ⟨t, [], [], [], [], none⟩, "db".data, "t0".data, fun _ => "h".data⟩,
     ⟨["t".data, "u".data], fun t => ⟨t, [], [], [], [], none⟩, "db".data, "t1".data, fun _ => "h".data⟩]
    ⟨true, some .sqlite, none, none, none, [], []⟩
    rfl rfl (by simp)

/-- C9 (amended): when the real parser is available and parsing succeeds,
a statement referencing more than one distinct table and containing
neither `join` nor `where` (case-insensitive substrings) gets the
Cartesian-product warning.  (In regex-fallback mode the code never emits
this warning, see the counterexample.) -/
theorem C9_cartesian_warning (venv : ValidatorEnv) (sql dialect : Str)
    (tbls cols : List Str)
    (hne : sql ≠ [])
    (hav : venv.sqlglotAvail = true)
    (hok : venv.parseOne sql dialect = .ok (tbls, cols))
    (hmulti : 1 < tbls.dedup.length)
    (hjoin : substrB "join".data (toLowerStr sql) = false)
    (hwhere : substrB "where".data (toLowerStr sql) = false) :
    cartesianWarning ∈ (parse_and_validate_sql venv sql dialect).2.1 := by
  unfold parse_and_validate_sql
  rw [if_neg hne]
  dsimp only
  rw [hav, hok]
  dsimp only
  split
  · split
    · simp
    · have hcond : (decide (1 < tbls.dedup.length)
          && !substrB "join".data (toLowerStr sql)
          && !substrB "where".data (toLowerStr sql)) = true := by
        simp [hmulti, hjoin, hwhere]
      exact absurd hcond (by assumption)
  · exact absurd rfl (by assumption)

/-- Witness for C9 (amended): `SELECT * FROM a, b` with a parser reporting
the two tables `a` and `b`. -/
theorem C9_cartesian_warning_witness :
    cartesianWarning ∈ (parse_and_validate_sql
      ⟨true, fun _ _ => .ok (["a".data, "b".data], []), false, fun _ => none⟩
      "SELECT * FROM a, b".data "mysql".data).2.1 :=
  C9_cartesian_warning
    ⟨true, fun _ _ => .ok (["a".data, "b".data], []), false, fun _ => none⟩
    "SELECT * FROM a, b".data "mysql".data ["a".data, "b".data] []
    (by decide) rfl rfl (by decide) (by decide) (by decide)

/-- C9 (counterexample to the claim as stated): in regex-fallback mode the
statement `insert into b select * from a` is accepted, references the two
distinct tables `b` and `a`, and contains neither `join` nor `where`, yet
its warnings do not include the Cartesian-product warning. -/
theorem C9_cartesian_warning_cex :
    ((parse_and_validate_sql ⟨false, fun _ _ => .error [], false, fun _ => none⟩
        "insert into b select * from a".data "mysql".data).1 = true) ∧
    ((parse_and_validate_sql ⟨false, fun _ _ => .error [], false, fun _ => none⟩
        "insert into b select * from a".data "mysql".data).2.2 =
      [("tables".data, MetaVal.strs ["b".data, "a".data]),
       ("columns".data, MetaVal.strs []),
       ("pretty".data, MetaVal.str "insert into b select * from a".data)]) ∧
    (substrB "join".data (toLowerStr "insert into b select * from a".data) = false) ∧
    (substrB "where".data (toLowerStr "insert into b select * from a".data) = false) ∧
    cartesianWarning ∉ (parse_and_validate_sql ⟨false, fun _ _ => .error [], false, fun _ => none⟩
        "insert into b select * from a".data "mysql".data).2.1 := by decide

/-- C10: if the driver connection succeeds but the immediate full schema
generation fails because the table listing returns no tables,
`connect_database` returns false while the connection state nonetheless
remains established: the post-state is connected, and a subsequent
`get_tables` call takes the connected path, returning the listing result
with no "no connection" warning. -/
theorem C10_false_with_connection (dbType : Str) (params : ConnectParams)
    (env : SamEnv) (st : SamSt)
    (hsupp : toLowerStr dbType = "mysql".data ∨ toLowerStr dbType = "postgres".data
      ∨ toLowerStr dbType = "postgresql".data ∨ toLowerStr dbType = "sqlite".data)
    (hempty : env.tables = []) :
    (connect_database dbType params (.ok ()) env st).1 = false ∧
    (connect_database dbType params (.ok ()) env st).2.1.connected = true ∧
    (∀ env' : SamEnv,
      get_tables env' (connect_database dbType params (.ok ()) env st).2.1
        = (env'.tables, [])) := by
  have hcd : ∃ dbt, connect_database dbType params (.ok ()) env st
      = connectWith dbt params (.ok ()) env st := by
    rcases hsupp with h | h | h | h
    · exact ⟨.mysql, by unfold connect_database; rw [h]; rfl⟩
    · exact ⟨.postgresql, by unfold connect_database; rw [h]; rfl⟩
    · exact ⟨.postgresql, by unfold connect_database; rw [h]; rfl⟩
    · exact ⟨.sqlite, by unfold connect_database; rw [h]; rfl⟩
  obtain ⟨dbt, hcd⟩ := hcd
  rw [hcd]
  have hgen : generate_full_schema env
      { st with db_type := some dbt, connected := true } =
      (false, { st with db_type := some dbt, connected := true }) := by
    unfold generate_full_schema
    have hgt : getTablesInternal env { st with db_type := some dbt, connected := true }
        = env.tables := rfl
    rw [hgt, hempty]
    simp
  have hcw : connectWith dbt params (.ok ()) env st =
      ((generate_full_schema env { st with db_type := some dbt, connected := true }).1,
       (generate_full_schema env { st with db_type := some dbt, connected := true }).2,
       []) := rfl
  rw [hcw, hgen]
  refine ⟨rfl, rfl, ?_⟩
  intro env'
  unfold get_tables getTablesInternal
  simp

/-- Witness for C10: a successful SQLite driver connection over an empty
database: `connect_database` reports failure, yet the state is connected
and a later `get_tables` (after tables appear) returns them without the
"no connection" warning. -/
theorem C10_false_with_connection_witness :
    ((connect_database "sqlite".data ⟨none⟩ (.ok ())
        ⟨[], fun t => ⟨t, [], [], [], [], none⟩, "db".data, "t0".data, fun _ => "h".data⟩
        mkSam).1 = false) ∧
    ((connect_database "sqlite".data ⟨none⟩ (.ok ())
        ⟨[], fun t => ⟨t, [], [], [], [], none⟩, "db".data, "t0".data, fun _ => "h".data⟩
        mkSam).2.1.connected = true) ∧
    (∀ env' : SamEnv,
      get_tables env' (connect_database "sqlite".data ⟨none⟩ (.ok ())
          ⟨[], fun t => ⟨t, [], [], [], [], none⟩, "db".data, "t0".data, fun _ => "h".data⟩
          mkSam).2.1 = (env'.tables, [])) :=
  C10_false_with_connection "sqlite".data ⟨none⟩
    ⟨[], fun t => ⟨t, [], [], [], [], none⟩, "db".data, "t0".data, fun _ => "h".data⟩
    mkSam (Or.inr (Or.inr (Or.inr (by decide)))) rfl
